import Mathlib

/-!
Shallow embedding in Lean 4 of the request pipeline of `src/app.py`
(the Flask app of kr-lss/demoinvest): the `/analyze` handler, the
yt-dlp download step, the GCS upload step, the Vertex AI inference
call, JSON decoding, the result-defaulting step, and the cleanup
block. External SDK calls are modelled as oracles in an environment
record; Python exceptions are modelled as a class-name/message pair;
Python dicts produced by `json.loads` are modelled as association
lists with first-match lookup and append-on-new-key assignment.
-/

set_option autoImplicit false

namespace DemoInvest

/-- A Python exception as the handler observes it: the class name and
the message (the handler renders `str(e)`, i.e. the message). -/
structure Exc where
  cls : String
  msg : String
  deriving DecidableEq, Repr

/-- A JSON value as decoded by `json.loads` for a flat object
conforming to the response schema (strings and integral numbers; the
schema admits no nesting for the declared fields). -/
inductive JVal where
  | str (s : String)
  | num (n : Int)
  | bool (b : Bool)
  | null
  deriving DecidableEq, Repr

/-- A Python dict as an association list (insertion order, first-match
lookup). -/
abbrev PyDict := List (String × JVal)

/-- Python `k in d`. -/
def dictContains (d : PyDict) (k : String) : Bool :=
  d.any (fun p => p.1 == k)

/-- Python `d[k]` as an optional lookup (first match). -/
def dictGet (d : PyDict) (k : String) : Option JVal :=
  match d with
  | [] => none
  | p :: rest => if p.1 == k then some p.2 else dictGet rest k

/-- Python `d[k] = v`: overwrite when the key is present, append at
the end otherwise (dict insertion order). -/
def dictSet (d : PyDict) (k : String) (v : JVal) : PyDict :=
  if dictContains d k then
    d.map (fun p => if p.1 == k then (k, v) else p)
  else
    d ++ [(k, v)]

/-- Lines 176-179 of `src/app.py`: fill defaults for the two optional
fields when absent; `mentioned_risk` defaults to the literal string
"언급된 리스크 없음" and `credibility_score` to the literal `5`. -/
def normalizeResults (d : PyDict) : PyDict :=
  let d1 :=
    if dictContains d "mentioned_risk" then d
    else dictSet d "mentioned_risk" (JVal.str "언급된 리스크 없음")
  if dictContains d1 "credibility_score" then d1
  else dictSet d1 "credibility_score" (JVal.num 5)

/-- The environment of one `/analyze` request: the submitted form
field and oracles for every external effect the handler performs.
`youtube_url` is `request.form.get("youtube_url")` (absent field gives
`none`); `downloadExc` is the exception `ydl.download` raises, if any;
`fileCreated` is whether a file exists at `local_video_path` after the
download attempt (checked at line 140 and again by cleanup);
`uploadExc` is the exception `blob.upload_from_filename` raises, if
any; `remoteCreatedOnUploadFail` is whether a remote object exists
despite the upload raising; `inference` is the outcome of
`model.generate_content` (the response text on success); `parse` is
the behaviour of `json.loads` on a given text; `removeExc` and
`blobDeleteExc` are the exceptions `os.remove` and `blob.delete` raise
during cleanup, if any. -/
structure Env where
  youtube_url : Option String
  downloadExc : Option Exc
  fileCreated : Bool
  uploadExc : Option Exc
  remoteCreatedOnUploadFail : Bool
  inference : Except Exc String
  parse : String → Except Exc PyDict
  removeExc : Option Exc
  blobDeleteExc : Option Exc

/-- Python truthiness of the form field: `not youtube_url` holds for a
missing field (`None`) and for the empty string. -/
def pyFalsy (o : Option String) : Bool :=
  match o with
  | none => true
  | some s => s == ""

/-- A call to `render_template("index.html", ...)`: the keyword
arguments the handler passes (error message, results dict, echoed
URL), each absent when not passed. -/
structure Response where
  error : Option String
  results : Option PyDict
  youtube_url : Option String
  deriving DecidableEq, Repr

/-- What the handler hands back to Flask: a returned rendered page, or
an exception propagating out of the handler. -/
inductive Outcome where
  | returned (r : Response)
  | raised (e : Exc)
  deriving DecidableEq, Repr

/-- The state of the `try` block (lines 113-181) when it finishes:
its value or escaping exception, plus the side effects performed so
far. `fileCreatedNow` is whether a file exists at `local_video_path`
when the block ends; `blobNameSet` is whether `gcs_blob_name` was
assigned (line 147); `remoteCreated` is whether an object exists in
the bucket when the block ends. -/
structure TryOut where
  result : Except Exc Response
  fileCreatedNow : Bool
  blobNameSet : Bool
  remoteCreated : Bool
  uploadCalled : Bool
  inferenceCalled : Bool

/-- The `try` block of `analyze` (lines 113-181): download with
yt-dlp (the inner try/except at lines 131-137 wraps a raising
download into `Exception("yt-dlp 다운로드 실패: " + str(e))`), the
defensive existence check (lines 140-141), the GCS upload (lines
146-153, storage-client exceptions propagate unchanged), the Gemini
call (lines 155-169, client exceptions propagate unchanged),
`json.loads` (line 173, its exceptions propagate unchanged), the
defaulting step, and the success `render_template` (line 181). -/
def tryBody (env : Env) (url : String) : TryOut :=
  match env.downloadExc with
  | some e =>
      { result := Except.error ⟨"Exception", "yt-dlp 다운로드 실패: " ++ e.msg⟩,
        fileCreatedNow := env.fileCreated, blobNameSet := false,
        remoteCreated := false, uploadCalled := false, inferenceCalled := false }
  | none =>
    if env.fileCreated = false then
      { result := Except.error
          ⟨"Exception", "yt-dlp: 다운로드에 실패했습니다 (파일이 생성되지 않음)."⟩,
        fileCreatedNow := false, blobNameSet := false,
        remoteCreated := false, uploadCalled := false, inferenceCalled := false }
    else
      match env.uploadExc with
      | some e =>
          { result := Except.error e,
            fileCreatedNow := true, blobNameSet := true,
            remoteCreated := env.remoteCreatedOnUploadFail,
            uploadCalled := true, inferenceCalled := false }
      | none =>
        match env.inference with
        | Except.error e =>
            { result := Except.error e,
              fileCreatedNow := true, blobNameSet := true, remoteCreated := true,
              uploadCalled := true, inferenceCalled := true }
        | Except.ok text =>
          match env.parse text with
          | Except.error e =>
              { result := Except.error e,
                fileCreatedNow := true, blobNameSet := true, remoteCreated := true,
                uploadCalled := true, inferenceCalled := true }
          | Except.ok d =>
              { result := Except.ok ⟨none, some (normalizeResults d), some url⟩,
                fileCreatedNow := true, blobNameSet := true, remoteCreated := true,
                uploadCalled := true, inferenceCalled := true }

/-- The `except Exception` clause (lines 183-185): any exception from
the try block is rendered as an error page echoing the URL. -/
def exceptClause (url : String) (t : Except Exc Response) : Response :=
  match t with
  | Except.ok r => r
  | Except.error e => ⟨some e.msg, none, some url⟩

/-- The state of the cleanup block (lines 187-200) when it finishes:
which artifacts still exist, which deletion calls were made, and any
exception escaping the block (the inner `except` at line 199 swallows
everything, so `escaped` is `none` in every reachable case). -/
structure CleanupOut where
  localAfter : Bool
  remoteAfter : Bool
  removeCalled : Bool
  deleteCalled : Bool
  escaped : Option Exc

/-- The body of the single `try` inside `finally` (lines 189-198):
remove the local file when it exists, then, when `gcs_blob_name` was
assigned and the blob exists, delete it. A raising `os.remove` aborts
the block before the blob deletion is reached. -/
def cleanupTry (localExists blobNameSet remoteExists : Bool)
    (removeExc blobDeleteExc : Option Exc) : CleanupOut :=
  if localExists then
    match removeExc with
    | some e =>
        { localAfter := true, remoteAfter := remoteExists,
          removeCalled := true, deleteCalled := false, escaped := some e }
    | none =>
        if blobNameSet && remoteExists then
          match blobDeleteExc with
          | some e =>
              { localAfter := false, remoteAfter := true,
                removeCalled := true, deleteCalled := true, escaped := some e }
          | none =>
              { localAfter := false, remoteAfter := false,
                removeCalled := true, deleteCalled := true, escaped := none }
        else
          { localAfter := false, remoteAfter := remoteExists,
            removeCalled := true, deleteCalled := false, escaped := none }
  else
    if blobNameSet && remoteExists then
      match blobDeleteExc with
      | some e =>
          { localAfter := false, remoteAfter := true,
            removeCalled := false, deleteCalled := true, escaped := some e }
      | none =>
          { localAfter := false, remoteAfter := false,
            removeCalled := false, deleteCalled := true, escaped := none }
    else
      { localAfter := false, remoteAfter := remoteExists,
        removeCalled := false, deleteCalled := false, escaped := none }

/-- The cleanup block (lines 187-200): the try body wrapped in the
`except Exception` at line 199, which logs and swallows whatever the
deletions raise. -/
def cleanup (localExists blobNameSet remoteExists : Bool)
    (removeExc blobDeleteExc : Option Exc) : CleanupOut :=
  let c := cleanupTry localExists blobNameSet remoteExists removeExc blobDeleteExc
  { c with escaped := none }

/-- Everything observable about one run of the handler: the HTTP
outcome, the artifacts still existing when it returns, and which
external calls were made. -/
structure RunResult where
  outcome : Outcome
  localFileFinal : Bool
  remoteObjFinal : Bool
  downloadCalled : Bool
  uploadCalled : Bool
  inferenceCalled : Bool
  removeCalled : Bool
  deleteCalled : Bool

/-- The `analyze` handler (lines 101-200 of `src/app.py`): the
empty-URL guard (lines 105-107), then the try/except/finally over the
pipeline. The `finally` semantics is explicit: were the cleanup block
to let an exception escape, that exception would replace the pending
response. -/
def analyze (env : Env) : RunResult :=
  if pyFalsy env.youtube_url then
    { outcome := Outcome.returned ⟨some "YouTube URL을 입력해주세요.", none, none⟩,
      localFileFinal := false, remoteObjFinal := false,
      downloadCalled := false, uploadCalled := false, inferenceCalled := false,
      removeCalled := false, deleteCalled := false }
  else
    let url := env.youtube_url.getD ""
    let t := tryBody env url
    let resp := exceptClause url t.result
    let c := cleanup t.fileCreatedNow t.blobNameSet t.remoteCreated
      env.removeExc env.blobDeleteExc
    { outcome :=
        match c.escaped with
        | some e => Outcome.raised e
        | none => Outcome.returned resp,
      localFileFinal := c.localAfter, remoteObjFinal := c.remoteAfter,
      downloadCalled := true, uploadCalled := t.uploadCalled,
      inferenceCalled := t.inferenceCalled,
      removeCalled := c.removeCalled, deleteCalled := c.deleteCalled }

/-- A type tag of the response schema (the literal "OBJECT", "STRING",
"NUMBER" strings of lines 73-84). -/
inductive SchemaType where
  | OBJECT
  | STRING
  | NUMBER
  deriving DecidableEq, Repr

/-- One property entry of the response schema: a type tag and an
optional enum of admissible strings. -/
structure PropSchema where
  type : SchemaType
  enum : Option (List String)
  deriving DecidableEq, Repr

/-- The object-level response schema: type tag, named properties,
required keys. -/
structure ObjSchema where
  type : SchemaType
  properties : List (String × PropSchema)
  required : List String
  deriving DecidableEq, Repr

/-- The dict literal `video_extraction_response_schema` of lines 73-84
of `src/app.py`, the schema submitted to the Gemini client in the
generation config. -/
def video_extraction_response_schema : ObjSchema :=
  { type := SchemaType.OBJECT,
    properties :=
      [("stock_name", ⟨SchemaType.STRING, none⟩),
       ("investment_thesis", ⟨SchemaType.STRING, none⟩),
       ("mentioned_risk", ⟨SchemaType.STRING, none⟩),
       ("credibility_score", ⟨SchemaType.NUMBER, none⟩),
       ("final_decision", ⟨SchemaType.STRING, some ["매수", "매도", "관망"]⟩),
       ("decision_reason", ⟨SchemaType.STRING, none⟩)],
    required := ["stock_name", "investment_thesis", "final_decision", "decision_reason"] }

/-- Whether a JSON value satisfies one property schema: string values
must lie in the enum when one is declared, number values match the
NUMBER tag. -/
def valMatches (p : PropSchema) (v : JVal) : Bool :=
  match p.type, v with
  | SchemaType.STRING, JVal.str s =>
      match p.enum with
      | some es => es.contains s
      | none => true
  | SchemaType.NUMBER, JVal.num _ => true
  | _, _ => false

/-- First-match lookup in the schema property list. -/
def propLookup (props : List (String × PropSchema)) (k : String) : Option PropSchema :=
  match props with
  | [] => none
  | p :: rest => if p.1 == k then some p.2 else propLookup rest k

/-- Structured-output conformance of a decoded object to the schema:
every required key is present, and every entry whose key the schema
declares satisfies the declared property schema (extra keys are not
forbidden by the schema). -/
def conformsTo (s : ObjSchema) (d : PyDict) : Bool :=
  s.required.all (fun k => dictContains d k) &&
  d.all (fun kv =>
    match propLookup s.properties kv.1 with
    | some p => valMatches p kv.2
    | none => true)

/-- A parsed model response carrying only the four required fields;
both optional fields are absent. -/
def baseDict : PyDict :=
  [("stock_name", JVal.str "삼성전자"),
   ("investment_thesis", JVal.str "실적 개선"),
   ("final_decision", JVal.str "매수"),
   ("decision_reason", JVal.str "근거 충분")]

/-- An environment in which every external call succeeds and the model
returns `baseDict`. -/
def envBase : Env :=
  { youtube_url := some "https://youtu.be/abc",
    downloadExc := none, fileCreated := true, uploadExc := none,
    remoteCreatedOnUploadFail := false,
    inference := Except.ok "response-json",
    parse := fun _ => Except.ok baseDict,
    removeExc := none, blobDeleteExc := none }

/-- An environment in which the pipeline succeeds but the cleanup call
to os.remove raises. -/
def envRemoveFail : Env :=
  { envBase with removeExc := some ⟨"OSError", "remove failed"⟩ }

/-- A parsed model response missing only mentioned_risk; the other
optional field credibility_score is present. -/
def dictNoRisk : PyDict := baseDict ++ [("credibility_score", JVal.num 9)]

/-- A parsed model response missing only credibility_score; the other
optional field mentioned_risk is present. -/
def dictNoScore : PyDict := baseDict ++ [("mentioned_risk", JVal.str "수급 불안")]

/-- An all-success environment whose model response is missing only
mentioned_risk. -/
def envNoRisk : Env := { envBase with parse := fun _ => Except.ok dictNoRisk }

/-- An all-success environment whose model response is missing only
credibility_score. -/
def envNoScore : Env := { envBase with parse := fun _ => Except.ok dictNoScore }

/-- An environment whose form field is the empty string. -/
def envEmptyUrl : Env := { envBase with youtube_url := some "" }

/-- An environment in which the external downloader raises. -/
def envDownloadFail : Env :=
  { envBase with
    downloadExc := some ⟨"RuntimeError", "URL unreachable"⟩
    fileCreated := false }

theorem dictContains_append (d l : PyDict) (k : String) :
    dictContains (d ++ l) k = (dictContains d k || dictContains l k) := by
  simp [dictContains, List.any_append]

theorem dictGet_append_of_contains (d l : PyDict) (k : String)
    (h : dictContains d k = true) : dictGet (d ++ l) k = dictGet d k := by
  induction d with
  | nil => simp [dictContains] at h
  | cons p rest ih =>
    by_cases hp : p.1 == k
    · simp [dictGet, hp]
    · simp only [dictContains, List.any_cons, hp, Bool.false_or] at h
      simp [dictGet, hp, ih h]

theorem dictGet_append_of_not_contains (d l : PyDict) (k : String)
    (h : dictContains d k = false) : dictGet (d ++ l) k = dictGet l k := by
  induction d with
  | nil => simp [dictGet]
  | cons p rest ih =>
    simp only [dictContains, List.any_cons, Bool.or_eq_false_iff] at h
    simp [dictGet, h.1, ih (by simp [dictContains, h.2])]

theorem dictGet_isSome_of_contains (d : PyDict) (k : String)
    (h : dictContains d k = true) : ∃ v, dictGet d k = some v := by
  induction d with
  | nil => simp [dictContains] at h
  | cons p rest ih =>
    by_cases hp : p.1 == k
    · exact ⟨p.2, by simp [dictGet, hp]⟩
    · simp only [dictContains, List.any_cons, hp, Bool.false_or] at h
      obtain ⟨v, hv⟩ := ih h
      exact ⟨v, by simp [dictGet, hp, hv]⟩

theorem dictContains_singleton (k1 : String) (v : JVal) (k : String) :
    dictContains [(k1, v)] k = (k1 == k) := by
  simp [dictContains]

theorem dictGet_mem (d : PyDict) (k : String) (v : JVal)
    (h : dictGet d k = some v) : (k, v) ∈ d := by
  induction d with
  | nil => simp [dictGet] at h
  | cons p rest ih =>
    obtain ⟨k1, v1⟩ := p
    by_cases hp : (k1 == k) = true
    · have hk : k1 = k := by simpa using hp
      simp only [dictGet, hp, if_true, Option.some.injEq] at h
      subst hk
      subst h
      exact List.mem_cons_self _ _
    · simp only [dictGet, hp, if_false] at h
      exact List.mem_cons_of_mem _ (ih h)

theorem normalizeResults_eq (d : PyDict) :
    normalizeResults d =
      (if dictContains d "mentioned_risk" = true then d
       else d ++ [("mentioned_risk", JVal.str "언급된 리스크 없음")]) ++
      (if dictContains d "credibility_score" = true then []
       else [("credibility_score", JVal.num 5)]) := by
  unfold normalizeResults dictSet
  by_cases h1 : dictContains d "mentioned_risk" = true <;>
    by_cases h2 : dictContains d "credibility_score" = true <;>
    simp [h1, h2, dictContains_append, dictContains_singleton]

theorem dictContains_cons (p : String × JVal) (rest : PyDict) (k : String) :
    dictContains (p :: rest) k = (p.1 == k || dictContains rest k) := by
  simp [dictContains]

theorem dictContains_nil (k : String) : dictContains [] k = false := by
  simp [dictContains]

theorem normalizeResults_contains_risk (d : PyDict) :
    dictContains (normalizeResults d) "mentioned_risk" = true := by
  rw [normalizeResults_eq]
  by_cases h1 : dictContains d "mentioned_risk" = true <;>
    by_cases h2 : dictContains d "credibility_score" = true <;>
    simp [h1, h2, dictContains_append, dictContains_cons, dictContains_nil]

theorem normalizeResults_contains_score (d : PyDict) :
    dictContains (normalizeResults d) "credibility_score" = true := by
  rw [normalizeResults_eq]
  by_cases h1 : dictContains d "mentioned_risk" = true <;>
    by_cases h2 : dictContains d "credibility_score" = true <;>
    simp [h1, h2, dictContains_append, dictContains_cons, dictContains_nil]

theorem normalizeResults_eq_self_of_contains (d : PyDict)
    (h1 : dictContains d "mentioned_risk" = true)
    (h2 : dictContains d "credibility_score" = true) :
    normalizeResults d = d := by
  rw [normalizeResults_eq]
  simp [h1, h2]

theorem normalizeResults_get_of_contains (d : PyDict) (k : String)
    (h : dictContains d k = true) :
    dictGet (normalizeResults d) k = dictGet d k := by
  rw [normalizeResults_eq]
  by_cases h1 : dictContains d "mentioned_risk" = true
  · simp [h1, dictGet_append_of_contains _ _ _ h]
  · have hc : dictContains (d ++ [("mentioned_risk", JVal.str "언급된 리스크 없음")]) k = true := by
      simp [dictContains_append, h]
    simp [h1, dictGet_append_of_contains _ _ _ hc, dictGet_append_of_contains _ _ _ h]

theorem normalizeResults_contains_cases (d : PyDict) (k : String)
    (h : dictContains (normalizeResults d) k = true) :
    dictContains d k = true ∨ k = "mentioned_risk" ∨ k = "credibility_score" := by
  rw [normalizeResults_eq] at h
  by_cases h1 : dictContains d "mentioned_risk" = true
  · by_cases h2 : dictContains d "credibility_score" = true
    · simp [h1, h2] at h
      exact Or.inl h
    · simp [h1, h2, dictContains_append, dictContains_cons, dictContains_nil] at h
      rcases h with h | h
      · exact Or.inl h
      · exact Or.inr (Or.inr h.symm)
  · by_cases h2 : dictContains d "credibility_score" = true
    · simp [h1, h2, dictContains_append, dictContains_cons, dictContains_nil] at h
      rcases h with h | h
      · exact Or.inl h
      · exact Or.inr (Or.inl h.symm)
    · simp [h1, h2, dictContains_append, dictContains_cons, dictContains_nil] at h
      rcases h with h | h | h
      · exact Or.inl h
      · exact Or.inr (Or.inl h.symm)
      · exact Or.inr (Or.inr h.symm)

theorem normalizeResults_default_risk (d : PyDict)
    (h : dictContains d "mentioned_risk" = false) :
    dictGet (normalizeResults d) "mentioned_risk" =
      some (JVal.str "언급된 리스크 없음") := by
  rw [normalizeResults_eq]
  have h1 : dictContains (d ++ [("mentioned_risk", JVal.str "언급된 리스크 없음")])
      "mentioned_risk" = true := by
    simp [dictContains_append, dictContains_cons, dictContains_nil]
  rw [if_neg (by simp [h]), dictGet_append_of_contains _ _ _ h1,
    dictGet_append_of_not_contains _ _ _ h]
  simp [dictGet]

theorem normalizeResults_default_score (d : PyDict)
    (h : dictContains d "credibility_score" = false) :
    dictGet (normalizeResults d) "credibility_score" = some (JVal.num 5) := by
  rw [normalizeResults_eq]
  by_cases h1 : dictContains d "mentioned_risk" = true
  · rw [if_pos h1, if_neg (by simp [h]), dictGet_append_of_not_contains _ _ _ h]
    simp [dictGet]
  · rw [if_neg h1, if_neg (by simp [h])]
    have hb : dictContains (d ++ [("mentioned_risk", JVal.str "언급된 리스크 없음")])
        "credibility_score" = false := by
      simp [dictContains_append, dictContains_cons, dictContains_nil, h]
    rw [dictGet_append_of_not_contains _ _ _ hb]
    simp [dictGet]

theorem tryBody_result_cases (env : Env) (url : String) :
    (∃ d, (tryBody env url).result =
        Except.ok ⟨none, some (normalizeResults d), some url⟩) ∨
    (∃ e, (tryBody env url).result = Except.error e) := by
  cases hd : env.downloadExc with
  | some e =>
    exact Or.inr ⟨⟨"Exception", "yt-dlp 다운로드 실패: " ++ e.msg⟩, by simp [tryBody, hd]⟩
  | none =>
    cases hf : env.fileCreated with
    | false =>
      exact Or.inr ⟨⟨"Exception", "yt-dlp: 다운로드에 실패했습니다 (파일이 생성되지 않음)."⟩,
        by simp [tryBody, hd, hf]⟩
    | true =>
      cases hu : env.uploadExc with
      | some e => exact Or.inr ⟨e, by simp [tryBody, hd, hf, hu]⟩
      | none =>
        cases hi : env.inference with
        | error e => exact Or.inr ⟨e, by simp [tryBody, hd, hf, hu, hi]⟩
        | ok text =>
          cases hp : env.parse text with
          | error e => exact Or.inr ⟨e, by simp [tryBody, hd, hf, hu, hi, hp]⟩
          | ok d => exact Or.inl ⟨d, by simp [tryBody, hd, hf, hu, hi, hp]⟩

theorem tryBody_blobName_remote (env : Env) (url : String)
    (h : (tryBody env url).blobNameSet = false) :
    (tryBody env url).remoteCreated = false := by
  cases hd : env.downloadExc with
  | some e => simp [tryBody, hd]
  | none =>
    cases hf : env.fileCreated with
    | false => simp [tryBody, hd, hf]
    | true =>
      cases hu : env.uploadExc with
      | some e => simp [tryBody, hd, hf, hu] at h
      | none =>
        cases hi : env.inference with
        | error e => simp [tryBody, hd, hf, hu, hi] at h
        | ok text =>
          cases hp : env.parse text with
          | error e => simp [tryBody, hd, hf, hu, hi, hp] at h
          | ok d => simp [tryBody, hd, hf, hu, hi, hp] at h

/-- C1: for every POST request to /analyze, regardless of which
pipeline stage fails (download, upload, inference, JSON parsing), the
analyze handler returns a rendered page — a success view carrying the
results or an error view carrying the failure message — and never
propagates an exception to the caller. -/
theorem C1_analyze_always_renders (env : Env) :
    ∃ r : Response, (analyze env).outcome = Outcome.returned r ∧
      ((r.error = none ∧ ∃ d, r.results = some d) ∨
       ((∃ m, r.error = some m) ∧ r.results = none)) := by
  by_cases h : pyFalsy env.youtube_url = true
  · exact ⟨⟨some "YouTube URL을 입력해주세요.", none, none⟩,
      by simp [analyze, h], Or.inr ⟨⟨_, rfl⟩, rfl⟩⟩
  · rcases tryBody_result_cases env (env.youtube_url.getD "") with ⟨d, hres⟩ | ⟨e, hres⟩
    · exact ⟨⟨none, some (normalizeResults d), some (env.youtube_url.getD "")⟩,
        by simp [analyze, h, cleanup, exceptClause, hres], Or.inl ⟨rfl, _, rfl⟩⟩
    · exact ⟨⟨some e.msg, none, some (env.youtube_url.getD "")⟩,
        by simp [analyze, h, cleanup, exceptClause, hres], Or.inr ⟨⟨_, rfl⟩, rfl⟩⟩

/-- C2 counterexample: a run past the empty-URL check in which every
pipeline stage succeeds but the cleanup call to os.remove raises; the
local file created by the download still exists when the handler
returns, so the artifacts are not reclaimed unconditionally. -/
theorem C2_counterexample :
    (analyze envRemoveFail).downloadCalled = true ∧
    (analyze envRemoveFail).localFileFinal = true := by
  constructor <;> rfl

/-- C2 amended: provided the cleanup deletion calls themselves do not
raise, every local media file and every remote object created during
the run is deleted before the handler returns, on the success path and
on every pipeline failure path. -/
theorem C2_cleanup_reclaims (env : Env)
    (hr : env.removeExc = none) (hb : env.blobDeleteExc = none) :
    (analyze env).localFileFinal = false ∧ (analyze env).remoteObjFinal = false := by
  by_cases h : pyFalsy env.youtube_url = true
  · constructor <;> simp [analyze, h]
  · have hbr := tryBody_blobName_remote env (env.youtube_url.getD "")
    have key : ∀ l b r : Bool, (b = false → r = false) →
        ((cleanup l b r none none).localAfter = false ∧
         (cleanup l b r none none).remoteAfter = false) := by
      decide
    have hk := key (tryBody env (env.youtube_url.getD "")).fileCreatedNow
      (tryBody env (env.youtube_url.getD "")).blobNameSet
      (tryBody env (env.youtube_url.getD "")).remoteCreated hbr
    constructor
    · have := hk.1
      simp only [analyze, h, if_false, Bool.false_eq_true, hr, hb]
      exact this
    · have := hk.2
      simp only [analyze, h, if_false, Bool.false_eq_true, hr, hb]
      exact this

/-- C2 witness: in the all-success environment both artifact flags are
false when the handler returns. -/
theorem C2_cleanup_reclaims_witness :
    (analyze envBase).localFileFinal = false ∧
    (analyze envBase).remoteObjFinal = false :=
  C2_cleanup_reclaims envBase rfl rfl

/-- C3: an empty (or absent) youtube_url field makes the handler
return the input form with the prompt message, with no download, no
upload, no inference call and no artifact ever created. -/
theorem C3_empty_url (env : Env) (h : pyFalsy env.youtube_url = true) :
    (analyze env).outcome =
      Outcome.returned ⟨some "YouTube URL을 입력해주세요.", none, none⟩ ∧
    (analyze env).downloadCalled = false ∧
    (analyze env).uploadCalled = false ∧
    (analyze env).inferenceCalled = false ∧
    (analyze env).localFileFinal = false ∧
    (analyze env).remoteObjFinal = false := by
  refine ⟨?_, ?_, ?_, ?_, ?_, ?_⟩ <;> simp [analyze, h]

/-- C3 witness: the empty-string submission renders the prompt page
and triggers no external call. -/
theorem C3_empty_url_witness :
    (analyze envEmptyUrl).outcome =
      Outcome.returned ⟨some "YouTube URL을 입력해주세요.", none, none⟩ ∧
    (analyze envEmptyUrl).downloadCalled = false ∧
    (analyze envEmptyUrl).uploadCalled = false ∧
    (analyze envEmptyUrl).inferenceCalled = false ∧
    (analyze envEmptyUrl).localFileFinal = false ∧
    (analyze envEmptyUrl).remoteObjFinal = false :=
  C3_empty_url envEmptyUrl (by decide)

/-- C4 counterexample: in a successful run whose model response lacks
mentioned_risk, the rendered result carries the Korean literal
"언급된 리스크 없음", which is not the string "no risk mentioned". -/
theorem C4_counterexample :
    dictContains baseDict "mentioned_risk" = false ∧
    (analyze envBase).outcome =
      Outcome.returned ⟨none, some (normalizeResults baseDict),
        some "https://youtu.be/abc"⟩ ∧
    dictGet (normalizeResults baseDict) "mentioned_risk" =
      some (JVal.str "언급된 리스크 없음") ∧
    JVal.str "언급된 리스크 없음" ≠ JVal.str "no risk mentioned" := by
  refine ⟨by decide, by decide, by decide, by decide⟩

/-- C4 amended: in a successful run, the rendered success view carries
the normalized parsed response, and each optional field is defaulted
independently when absent — a response missing mentioned_risk yields
the Korean sentinel "언급된 리스크 없음" (the literal meaning of "no
risk mentioned") for that field, and a response missing
credibility_score yields the neutral literal 5 for that field,
whether or not the other optional field is present. -/
theorem C4_defaults (env : Env) (t : String) (d : PyDict)
    (h : pyFalsy env.youtube_url = false)
    (hd : env.downloadExc = none) (hf : env.fileCreated = true)
    (hu : env.uploadExc = none) (hi : env.inference = Except.ok t)
    (hp : env.parse t = Except.ok d) :
    (analyze env).outcome =
      Outcome.returned ⟨none, some (normalizeResults d),
        some (env.youtube_url.getD "")⟩ ∧
    (dictContains d "mentioned_risk" = false →
      dictGet (normalizeResults d) "mentioned_risk" =
        some (JVal.str "언급된 리스크 없음")) ∧
    (dictContains d "credibility_score" = false →
      dictGet (normalizeResults d) "credibility_score" = some (JVal.num 5)) := by
  refine ⟨?_, normalizeResults_default_risk d, normalizeResults_default_score d⟩
  simp [analyze, h, tryBody, hd, hf, hu, hi, hp, cleanup, exceptClause]

/-- C4 witness: the amended statement instantiated in two all-success
environments, one whose response is missing only mentioned_risk and
one missing only credibility_score — each defaulting fires on its own,
and the rendered view carries the normalized response. -/
theorem C4_defaults_witness :
    (analyze envNoRisk).outcome =
      Outcome.returned ⟨none, some (normalizeResults dictNoRisk),
        some (envNoRisk.youtube_url.getD "")⟩ ∧
    dictGet (normalizeResults dictNoRisk) "mentioned_risk" =
      some (JVal.str "언급된 리스크 없음") ∧
    (analyze envNoScore).outcome =
      Outcome.returned ⟨none, some (normalizeResults dictNoScore),
        some (envNoScore.youtube_url.getD "")⟩ ∧
    dictGet (normalizeResults dictNoScore) "credibility_score" =
      some (JVal.num 5) :=
  ⟨(C4_defaults envNoRisk "response-json" dictNoRisk
      (by decide) rfl rfl rfl rfl rfl).1,
   (C4_defaults envNoRisk "response-json" dictNoRisk
      (by decide) rfl rfl rfl rfl rfl).2.1 (by decide),
   (C4_defaults envNoScore "response-json" dictNoScore
      (by decide) rfl rfl rfl rfl rfl).1,
   (C4_defaults envNoScore "response-json" dictNoScore
      (by decide) rfl rfl rfl rfl rfl).2.2 (by decide)⟩

/-- C5 counterexample: the schema constrains final_decision to the
Korean enum 매수/매도/관망, not to the strings buy, sell, wait. -/
theorem C5_counterexample :
    propLookup video_extraction_response_schema.properties "final_decision" =
      some ⟨SchemaType.STRING, some ["매수", "매도", "관망"]⟩ ∧
    propLookup video_extraction_response_schema.properties "final_decision" ≠
      some ⟨SchemaType.STRING, some ["buy", "sell", "wait"]⟩ := by
  refine ⟨by decide, by decide⟩

/-- C5 amended: the schema submitted to the inference client
constrains final_decision to exactly the three-valued enum 매수, 매도,
관망 (buy, sell, wait), and every result produced from a
schema-conformant response — the defaulting step included — has a
final_decision drawn from that enum. -/
theorem C5_final_decision_enum (d : PyDict)
    (h : conformsTo video_extraction_response_schema d = true) :
    ∃ s, dictGet (normalizeResults d) "final_decision" = some (JVal.str s) ∧
      (s = "매수" ∨ s = "매도" ∨ s = "관망") := by
  unfold conformsTo at h
  rw [Bool.and_eq_true] at h
  obtain ⟨hreq, hall⟩ := h
  have hfd : dictContains d "final_decision" = true := by
    have := List.all_eq_true.mp hreq "final_decision" (by decide)
    simpa using this
  obtain ⟨v, hv⟩ := dictGet_isSome_of_contains d "final_decision" hfd
  have hmem := dictGet_mem d "final_decision" v hv
  have hmatch := List.all_eq_true.mp hall ("final_decision", v) hmem
  have hlook : propLookup video_extraction_response_schema.properties
      "final_decision" = some ⟨SchemaType.STRING, some ["매수", "매도", "관망"]⟩ := by
    decide
  rw [hlook] at hmatch
  cases v with
  | str s =>
    simp [valMatches] at hmatch
    exact ⟨s, by rw [normalizeResults_get_of_contains d _ hfd]; exact hv, hmatch⟩
  | num n => simp [valMatches] at hmatch
  | bool b => simp [valMatches] at hmatch
  | null => simp [valMatches] at hmatch

/-- C5 witness: the base response conforms to the schema and its
normalized final_decision lies in the enum. -/
theorem C5_final_decision_enum_witness :
    ∃ s, dictGet (normalizeResults baseDict) "final_decision" =
        some (JVal.str s) ∧ (s = "매수" ∨ s = "매도" ∨ s = "관망") :=
  C5_final_decision_enum baseDict (by decide)

/-- C6 counterexample: in a successful run, a raising os.remove makes
cleanup skip the blob deletion entirely — blob.delete is never called
although the remote object exists and deleting it would succeed — so
the two deletions are not independently best-effort. -/
theorem C6_counterexample :
    (analyze envRemoveFail).removeCalled = true ∧
    (analyze envRemoveFail).deleteCalled = false ∧
    (analyze envRemoveFail).remoteObjFinal = true ∧
    envRemoveFail.blobDeleteExc = none := by
  refine ⟨by decide, by decide, by decide, by decide⟩

/-- C6 amended: cleanup as a whole is best-effort — whatever the
deletions raise is swallowed and the pending response is returned
unchanged, never masked — but both deletions share one try block, so a
failure while deleting the local file prevents the attempt to delete
the remote object. -/
theorem C6_cleanup_best_effort (env : Env)
    (h : pyFalsy env.youtube_url = false) :
    (analyze env).outcome =
      Outcome.returned (exceptClause (env.youtube_url.getD "")
        (tryBody env (env.youtube_url.getD "")).result) ∧
    ((tryBody env (env.youtube_url.getD "")).fileCreatedNow = true →
      env.removeExc ≠ none → (analyze env).deleteCalled = false) := by
  constructor
  · simp [analyze, h, cleanup]
  · intro hl hr
    cases hre : env.removeExc with
    | none => exact absurd hre hr
    | some e => simp [analyze, h, cleanup, cleanupTry, hl, hre]

/-- C6 witness: the amended statement instantiated in the environment
whose os.remove raises. -/
theorem C6_cleanup_best_effort_witness :
    (analyze envRemoveFail).outcome =
      Outcome.returned (exceptClause (envRemoveFail.youtube_url.getD "")
        (tryBody envRemoveFail (envRemoveFail.youtube_url.getD "")).result) ∧
    (analyze envRemoveFail).deleteCalled = false := by
  have h := C6_cleanup_best_effort envRemoveFail (by decide)
  exact ⟨h.1, h.2 (by decide) (by decide)⟩

/-- C7: whenever the downloader fails — the external tool raises or no
file exists at the expected path — no upload and no inference call is
made, and the request ends in the error view. -/
theorem C7_download_failure (env : Env) (h : pyFalsy env.youtube_url = false)
    (hd : env.downloadExc ≠ none ∨ env.fileCreated = false) :
    (analyze env).uploadCalled = false ∧
    (analyze env).inferenceCalled = false ∧
    ∃ m, (analyze env).outcome =
      Outcome.returned ⟨some m, none, some (env.youtube_url.getD "")⟩ := by
  cases he : env.downloadExc with
  | some e =>
    exact ⟨by simp [analyze, h, tryBody, he, cleanup],
      by simp [analyze, h, tryBody, he, cleanup],
      ⟨"yt-dlp 다운로드 실패: " ++ e.msg,
        by simp [analyze, h, tryBody, he, cleanup, exceptClause]⟩⟩
  | none =>
    have hf : env.fileCreated = false := by
      rcases hd with hd | hd
      · exact absurd he hd
      · exact hd
    exact ⟨by simp [analyze, h, tryBody, he, hf, cleanup],
      by simp [analyze, h, tryBody, he, hf, cleanup],
      ⟨"yt-dlp: 다운로드에 실패했습니다 (파일이 생성되지 않음).",
        by simp [analyze, h, tryBody, he, hf, cleanup, exceptClause]⟩⟩

/-- C7 witness: with a raising downloader, no upload and no inference
happen and the error view is rendered. -/
theorem C7_download_failure_witness :
    (analyze envDownloadFail).uploadCalled = false ∧
    (analyze envDownloadFail).inferenceCalled = false ∧
    ∃ m, (analyze envDownloadFail).outcome =
      Outcome.returned ⟨some m, none,
        some (envDownloadFail.youtube_url.getD "")⟩ :=
  C7_download_failure envDownloadFail (by decide) (Or.inl (by decide))

/-- C8: the defaulting step of the Result Normalizer is idempotent —
applying it twice to any parsed mapping yields exactly the mapping the
first application produced. -/
theorem C8_normalize_idempotent (d : PyDict) :
    normalizeResults (normalizeResults d) = normalizeResults d :=
  normalizeResults_eq_self_of_contains _ (normalizeResults_contains_risk d)
    (normalizeResults_contains_score d)

/-- C9 counterexample: when the external downloader raises, the error
leaving the download step is a generic Exception value, not a
DownloadError kind. -/
theorem C9_counterexample :
    (tryBody envDownloadFail "https://youtu.be/abc").result =
      Except.error ⟨"Exception", "yt-dlp 다운로드 실패: URL unreachable"⟩ ∧
    "Exception" ≠ "DownloadError" := by
  refine ⟨by rfl, by decide⟩

/-- C9 amended: no DownloadError, UploadError, InferenceError or
ParseError classes exist; download failures are raised as generic
Exception values whose distinct messages distinguish the
tool-raised and missing-file sub-cases, while upload, inference and
parse failures propagate the third-party exception object unchanged. -/
theorem C9_error_kinds (env : Env) (url : String) :
    (∀ e, env.downloadExc = some e →
      (tryBody env url).result =
        Except.error ⟨"Exception", "yt-dlp 다운로드 실패: " ++ e.msg⟩) ∧
    (env.downloadExc = none → env.fileCreated = false →
      (tryBody env url).result =
        Except.error
          ⟨"Exception", "yt-dlp: 다운로드에 실패했습니다 (파일이 생성되지 않음)."⟩) ∧
    (∀ e, env.downloadExc = none → env.fileCreated = true →
      env.uploadExc = some e → (tryBody env url).result = Except.error e) ∧
    (∀ e, env.downloadExc = none → env.fileCreated = true →
      env.uploadExc = none → env.inference = Except.error e →
      (tryBody env url).result = Except.error e) ∧
    (∀ t e, env.downloadExc = none → env.fileCreated = true →
      env.uploadExc = none → env.inference = Except.ok t →
      env.parse t = Except.error e →
      (tryBody env url).result = Except.error e) := by
  refine ⟨?_, ?_, ?_, ?_, ?_⟩
  · intro e hd
    simp [tryBody, hd]
  · intro hd hf
    simp [tryBody, hd, hf]
  · intro e hd hf hu
    simp [tryBody, hd, hf, hu]
  · intro e hd hf hu hi
    simp [tryBody, hd, hf, hu, hi]
  · intro t e hd hf hu hi hp
    simp [tryBody, hd, hf, hu, hi, hp]

/-- C9 witness: the amended statement instantiated on a raising
downloader. -/
theorem C9_error_kinds_witness :
    (tryBody envDownloadFail "https://youtu.be/abc").result =
      Except.error ⟨"Exception", "yt-dlp 다운로드 실패: " ++ "URL unreachable"⟩ :=
  (C9_error_kinds envDownloadFail "https://youtu.be/abc").1
    ⟨"RuntimeError", "URL unreachable"⟩ rfl

/-- C10: the defaulting step never modifies or removes a field present
in the parsed response — every present key keeps its value — and the
only keys it may add are mentioned_risk and credibility_score. -/
theorem C10_normalize_frame (d : PyDict) (k : String) :
    (dictContains d k = true →
      dictGet (normalizeResults d) k = dictGet d k) ∧
    (dictContains (normalizeResults d) k = true →
      dictContains d k = true ∨ k = "mentioned_risk" ∨ k = "credibility_score") :=
  ⟨normalizeResults_get_of_contains d k, normalizeResults_contains_cases d k⟩

/-- C10 witness: on the base response, stock_name keeps its value
through normalization and decision_reason in the output comes from the
input. -/
theorem C10_normalize_frame_witness :
    dictGet (normalizeResults baseDict) "stock_name" =
      dictGet baseDict "stock_name" ∧
    (dictContains baseDict "decision_reason" = true ∨
      "decision_reason" = "mentioned_risk" ∨
      "decision_reason" = "credibility_score") :=
  ⟨(C10_normalize_frame baseDict "stock_name").1 (by decide),
   (C10_normalize_frame baseDict "decision_reason").2 (by decide)⟩

end DemoInvest
